import Mathlib

/-!
Verification development for the `repository.scarwizard` release-packaging
scripts (`src/_repo_generator.py` and `src/repo_generator.py`).

The scripts are shallowly embedded: XML element trees become an inductive
type, the filesystem interactions of one `Generator` run become explicit
input/output records, and library primitives used by the scripts
(`hashlib.md5`, UTF-8 encoding, `os.walk` with pruning) are modelled as
executable Lean functions over `Nat` byte lists.
-/

/-- An XML element as produced by `xml.etree.ElementTree`: a tag, an ordered
attribute list and an ordered child list.  Text content is not consulted by
any of the reconciliation logic, so it is not modelled. -/
inductive XmlElement where
  | mk (tag : String) (attrs : List (String × String)) (children : List XmlElement)
deriving Repr

def XmlElement.tag : XmlElement → String
  | .mk t _ _ => t

def XmlElement.attrs : XmlElement → List (String × String)
  | .mk _ a _ => a

def XmlElement.children : XmlElement → List XmlElement
  | .mk _ _ c => c

/-- Models `element.get(key)` of ElementTree: first matching attribute, else `None`. -/
def getAttr (e : XmlElement) (k : String) : Option String :=
  (e.attrs.find? (fun p => p.1 == k)).map Prod.snd

/-- Models `element.set(key, value)` restricted to keys already present. -/
def setAttr (e : XmlElement) (k v : String) : XmlElement :=
  .mk e.tag (e.attrs.map (fun p => if p.1 == k then (k, v) else p)) e.children

/-- The `id` attributes of a list of index entries (`''` when absent). -/
def idsOf (l : List XmlElement) : List String :=
  l.map (fun e => (getAttr e "id").getD "")

/-! ## Python string primitives

`str.startswith`, `str.endswith`, `str.lower` and substring containment are
modelled over the character list of a string, so that every definition
reduces inside the kernel. -/

/-- Models `s.startswith(pre)`. -/
def strStartsWith (s pre : String) : Bool := pre.data.isPrefixOf s.data

/-- Models `s.endswith(suf)`. -/
def strEndsWith (s suf : String) : Bool := suf.data.isSuffixOf s.data

/-- Models `s.lower()`. -/
def strToLower (s : String) : String := String.mk (s.data.map Char.toLower)

/-- Models `pat in s` (substring containment). -/
def strContainsSub (s pat : String) : Bool :=
  (List.range (s.data.length + 1)).any (fun i => pat.data.isPrefixOf (s.data.drop i))

/-! ## Discovery (src/_repo_generator.py lines 221-229)

`os.listdir(self.release_path)` is modelled as an explicit listing in
filesystem enumeration order; each entry carries the two filesystem facts the
list comprehension queries (`os.path.isdir`, existence of `addon.xml`). -/

/-- One entry of `os.listdir(release_path)`. -/
structure DirEntry where
  name : String
  isDir : Bool
  hasAddonXml : Bool
deriving Repr, DecidableEq

/-- The `folders` list comprehension: keep entries that are directories, are
not the `zips` output directory, do not start with `.`, and contain an
`addon.xml`; enumeration order is preserved. -/
def discoverFolders (listing : List DirEntry) : List String :=
  (listing.filter (fun e =>
    e.isDir && e.name != "zips" && !(strStartsWith e.name ".") && e.hasAddonXml)).map
    (fun e => e.name)

/-! ## Per-addon reconcile loop (src/_repo_generator.py lines 231-252)

For each folder: parse `<folder>/addon.xml`; on success set
`changed = True` and append the manifest root to `addons_root`; on failure
print `Error processing addon <folder>: <e>` and continue with the next
folder.  (The `addon_xpath` lookup template on line 231 is never used: there
is no lookup-and-replace of an existing entry.) -/

/-- Result of `ElementTree.parse` on one addon's `addon.xml`:
`.ok root` or `.error message` for a `ParseError`/`IOError`. -/
abbrev ManifestTable := String → Except String XmlElement

/-- The `for addon in folders` loop: state is the index entry list
(children of `addons_root`), the `changed` flag and the reported errors. -/
def processFolders (manifests : ManifestTable) :
    List String → List XmlElement → Bool → List String →
    List XmlElement × Bool × List String
  | [], root, changed, errs => (root, changed, errs)
  | a :: rest, root, changed, errs =>
    match manifests a with
    | .ok addonRoot =>
        processFolders manifests rest (root ++ [addonRoot]) true errs
    | .error e =>
        processFolders manifests rest root changed
          (errs ++ ["Error processing addon " ++ a ++ ": " ++ e])

/-! ## One `Generator` run (src/_repo_generator.py lines 82-98, 207-262) -/

/-- The filesystem facts one run reads: the release-root listing, the parse
result of each candidate's `addon.xml`, and the parsed `zips/addons.xml`
when that file exists (`none` when it does not). -/
structure ReleaseInput where
  listing : List DirEntry
  manifests : ManifestTable
  existingAddonsXml : Option (List XmlElement)

/-- Outcome of `_generate_addons_file`: the final in-memory entry list, the
`changed` flag (also its truthy return value on the success path) and the
per-addon error reports. -/
structure GenResult where
  index : List XmlElement
  changed : Bool
  errors : List String
deriving Repr

/-- Models `_generate_addons_file`: load the existing index or start from an empty
`<addons>` root, discover candidate folders, run the reconcile loop, and
write the file back only when `changed`. -/
def generateAddonsFile (inp : ReleaseInput) : GenResult :=
  let root0 := inp.existingAddonsXml.getD []
  let folders := discoverFolders inp.listing
  let r := processFolders inp.manifests folders root0 false []
  { index := r.1, changed := r.2.1, errors := r.2.2 }

/-! ## Index serialization (src/_repo_generator.py line 257)

`addons_xml.write(path, encoding="utf-8", xml_declaration=True)`:
an XML declaration line, then the tree with attributes in document order,
double-quoted, childless elements self-closed with a space. -/

/-- A single-quote character, for the XML declaration. -/
def singleQuote : String := String.mk [Char.ofNat 39]

mutual

def serializeElement : XmlElement → String
  | .mk tag attrs children =>
    "<" ++ tag ++
      String.join (attrs.map (fun p => " " ++ p.1 ++ "=\x22" ++ p.2 ++ "\x22")) ++
      (match children with
       | [] => " />"
       | _ => ">" ++ serializeList children ++ "</" ++ tag ++ ">")

def serializeList : List XmlElement → String
  | [] => ""
  | e :: es => serializeElement e ++ serializeList es

end

/-- The serialized `addons.xml` content for an entry list: XML declaration
followed by the `<addons>` root holding one child per entry. -/
def serializeIndex (entries : List XmlElement) : String :=
  "<?xml version=" ++ singleQuote ++ "1.0" ++ singleQuote ++ " encoding=" ++
    singleQuote ++ "utf-8" ++ singleQuote ++ "?>\n" ++
    serializeElement (.mk "addons" [] entries)

/-! ## UTF-8 encoding (`str.encode("utf-8")`) -/

/-- UTF-8 bytes of one code point. -/
def utf8Bytes (c : Char) : List Nat :=
  let n := c.toNat
  if n < 128 then [n]
  else if n < 2048 then [192 + n / 64, 128 + n % 64]
  else if n < 65536 then [224 + n / 4096, 128 + n / 64 % 64, 128 + n % 64]
  else [240 + n / 262144, 128 + n / 4096 % 64, 128 + n / 64 % 64, 128 + n % 64]

/-- Models `s.encode("utf-8")` as a byte list. -/
def utf8Encode (s : String) : List Nat :=
  (s.data.map utf8Bytes).flatten

/-! ## MD5 (`hashlib.md5(...).hexdigest()`, RFC 1321)

src/_repo_generator.py lines 191-205 hash the UTF-8 bytes of the file
content; the digest algorithm itself is embedded here over `Nat` byte
lists, with 32-bit words reduced modulo `2 ^ 32`. -/

/-- The constant `2 ^ 32`. -/
def m32 : Nat := 4294967296

/-- All-ones 32-bit mask, used for bitwise complement. -/
def mask32 : Nat := 4294967295

/-- 32-bit addition. -/
def add32 (a b : Nat) : Nat := (a + b) % m32

/-- 32-bit left rotation (inputs below `2 ^ 32`). -/
def rotl32 (x s : Nat) : Nat := (x * 2 ^ s + x / 2 ^ (32 - s)) % m32

def md5F (x y z : Nat) : Nat := (x &&& y) ||| ((mask32 ^^^ x) &&& z)

def md5G (x y z : Nat) : Nat := (x &&& z) ||| (y &&& (mask32 ^^^ z))

def md5H (x y z : Nat) : Nat := x ^^^ y ^^^ z

def md5I (x y z : Nat) : Nat := y ^^^ (x ||| (mask32 ^^^ z))

/-- The 64 sine-derived round constants. -/
def md5K : List Nat :=
  [3614090360, 3905402710, 606105819, 3250441966, 4118548399, 1200080426, 2821735955, 4249261313,
   1770035416, 2336552879, 4294925233, 2304563134, 1804603682, 4254626195, 2792965006, 1236535329,
   4129170786, 3225465664, 643717713, 3921069994, 3593408605, 38016083, 3634488961, 3889429448,
   568446438, 3275163606, 4107603335, 1163531501, 2850285829, 4243563512, 1735328473, 2368359562,
   4294588738, 2272392833, 1839030562, 4259657740, 2763975236, 1272893353, 4139469664, 3200236656,
   681279174, 3936430074, 3572445317, 76029189, 3654602809, 3873151461, 530742520, 3299628645,
   4096336452, 1126891415, 2878612391, 4237533241, 1700485571, 2399980690, 4293915773, 2240044497,
   1873313359, 4264355552, 2734768916, 1309151649, 4149444226, 3174756917, 718787259, 3951481745]

/-- The per-round left-rotation amounts. -/
def md5S : List Nat :=
  [7, 12, 17, 22, 7, 12, 17, 22, 7, 12, 17, 22, 7, 12, 17, 22,
   5, 9, 14, 20, 5, 9, 14, 20, 5, 9, 14, 20, 5, 9, 14, 20,
   4, 11, 16, 23, 4, 11, 16, 23, 4, 11, 16, 23, 4, 11, 16, 23,
   6, 10, 15, 21, 6, 10, 15, 21, 6, 10, 15, 21, 6, 10, 15, 21]

/-- Little-endian 32-bit word `j` of a 64-byte block. -/
def wordAt (block : List Nat) (j : Nat) : Nat :=
  block.getD (4 * j) 0 + 256 * block.getD (4 * j + 1) 0 +
    65536 * block.getD (4 * j + 2) 0 + 16777216 * block.getD (4 * j + 3) 0

/-- One of the 64 MD5 rounds applied to the state `(a, b, c, d)`. -/
def md5Step (block : List Nat) (i : Nat) :
    Nat × Nat × Nat × Nat → Nat × Nat × Nat × Nat
  | (a, b, c, d) =>
    let fg : Nat × Nat :=
      if i < 16 then (md5F b c d, i)
      else if i < 32 then (md5G b c d, (5 * i + 1) % 16)
      else if i < 48 then (md5H b c d, (3 * i + 5) % 16)
      else (md5I b c d, 7 * i % 16)
    let newB :=
      add32 b (rotl32 (add32 (add32 (add32 a fg.1) (md5K.getD i 0)) (wordAt block fg.2))
        (md5S.getD i 0))
    (d, newB, b, c)

/-- Compress one 64-byte block into the running state. -/
def md5Block (st : Nat × Nat × Nat × Nat) (block : List Nat) : Nat × Nat × Nat × Nat :=
  let r := (List.range 64).foldl (fun s i => md5Step block i s) st
  (add32 st.1 r.1, add32 st.2.1 r.2.1, add32 st.2.2.1 r.2.2.1, add32 st.2.2.2 r.2.2.2)

/-- Little-endian bytes of a 32-bit word. -/
def leBytes4 (x : Nat) : List Nat :=
  [x % 256, x / 256 % 256, x / 65536 % 256, x / 16777216 % 256]

/-- Little-endian bytes of the 64-bit message bit length. -/
def leBytes8 (x : Nat) : List Nat :=
  leBytes4 (x % m32) ++ leBytes4 (x / m32 % m32)

/-- MD5 padding: a `0x80` byte, zeros to 56 mod 64, then the bit length. -/
def md5Pad (msg : List Nat) : List Nat :=
  msg ++ [128] ++ List.replicate ((56 + 64 - (msg.length + 1) % 64) % 64) 0 ++
    leBytes8 (msg.length * 8 % 2 ^ 64)

/-- Split a byte list (of length a multiple of 64 after padding) into its
64-byte blocks. -/
def toBlocks (l : List Nat) : List (List Nat) :=
  (List.range (l.length / 64)).map (fun i => (l.drop (64 * i)).take 64)

/-- The 16-byte MD5 digest of a byte list. -/
def md5Digest (msg : List Nat) : List Nat :=
  let st := (toBlocks (md5Pad msg)).foldl md5Block
    (1732584193, 4023233417, 2562383102, 271733878)
  leBytes4 st.1 ++ leBytes4 st.2.1 ++ leBytes4 st.2.2.1 ++ leBytes4 st.2.2.2

/-- The sixteen lowercase hexadecimal digits. -/
def hexDigits : List Char := "0123456789abcdef".data

/-- The hexadecimal digit of `n % 16`. -/
def hexDigit (n : Nat) : Char := hexDigits.getD (n % 16) '0'

/-- The two hexadecimal digits of a byte, high nibble first. -/
def byteHex (b : Nat) : List Char := [hexDigit (b / 16), hexDigit b]

/-- Models `hashlib.md5(msg).hexdigest()`: the digest as 32 lowercase hex digits. -/
def md5Hex (msg : List Nat) : String :=
  String.mk ((md5Digest msg).map byteHex).flatten

/-- Models `_generate_md5_file` (src/_repo_generator.py lines 191-205): read the
index file content, hash its UTF-8 bytes, and write the hex digest —
exactly the digest string, with no trailing newline. -/
def generateMd5File (indexFileContent : String) : String :=
  md5Hex (utf8Encode indexFileContent)

/-- The files one run writes under `zips/`: the serialized `addons.xml`
content and the `addons.xml.md5` content (`none` = file not written). -/
structure RunOutput where
  gen : GenResult
  addonsXmlContent : Option String
  md5Content : Option String

/-- Models `Generator.__init__` minus archive side effects: run
`_generate_addons_file`; when it returns truthy (`changed` and the write
succeeded), run `_generate_md5_file` on the content just written. -/
def generatorRun (inp : ReleaseInput) : RunOutput :=
  let g := generateAddonsFile inp
  if g.changed then
    let content := serializeIndex g.index
    { gen := g, addonsXmlContent := some content,
      md5Content := some (generateMd5File content) }
  else
    { gen := g, addonsXmlContent := none, md5Content := none }

/-! ## Archive building (`_create_zip`)

src/repo_generator.py lines 102-124 (skip-if-exists, prefix file filter) and
src/_repo_generator.py lines 124-154 (unconditional rebuild, directory-only
filter).  A directory tree is modelled with files and subdirectories in
`os.listdir` order; `os.walk` entries become archive member paths given as
component lists rooted at the addon folder's parent. -/

/-- The `IGNORE` list shared by both scripts. -/
def IGNORE : List String :=
  [".git", ".github", ".gitignore", ".DS_Store", "thumbs.db", ".idea", "venv"]

/-- A directory tree: file names and named subdirectories. -/
inductive DirTree where
  | mk (files : List String) (subdirs : List (String × DirTree))

def DirTree.files : DirTree → List String
  | .mk fs _ => fs

def DirTree.subdirs : DirTree → List (String × DirTree)
  | .mk _ ds => ds

/-- The file filter of src/repo_generator.py line 119: drop files whose name
starts with any entry of `IGNORE`. -/
def ignoredFile (f : String) : Bool := IGNORE.any (fun i => strStartsWith f i)

mutual

/-- Models the `os.walk` of src/repo_generator.py lines 114-123: per directory, prune
subdirectories named in `IGNORE`, drop files matching the prefix filter, and
emit each surviving file under `path ++ [file]`. -/
def walkEntries (path : List String) : DirTree → List (List String)
  | .mk files subdirs =>
    (files.filter (fun f => !ignoredFile f)).map (fun f => path ++ [f]) ++
      walkSubdirs path subdirs

def walkSubdirs (path : List String) : List (String × DirTree) → List (List String)
  | [] => []
  | (n, d) :: rest =>
    (if n ∈ IGNORE then [] else walkEntries (path ++ [n]) d) ++ walkSubdirs path rest

end

mutual

/-- Models the `os.walk` of src/_repo_generator.py lines 140-150: prune `IGNORE`
subdirectories only; files are never filtered. -/
def walkEntriesLegacy (path : List String) : DirTree → List (List String)
  | .mk files subdirs =>
    files.map (fun f => path ++ [f]) ++ walkSubdirsLegacy path subdirs

def walkSubdirsLegacy (path : List String) : List (String × DirTree) → List (List String)
  | [] => []
  | (n, d) :: rest =>
    (if n ∈ IGNORE then [] else walkEntriesLegacy (path ++ [n]) d) ++
      walkSubdirsLegacy path rest

end

mutual

/-- Models `_remove_binaries` (src/_repo_generator.py lines 100-122, identical in
src/repo_generator.py lines 82-100): before any zip is built, delete every
file whose lowercased name ends in `pyo` or `pyc`, and every directory whose
lowercased name contains `pycache`, throughout the release tree. -/
def removeBinaries : DirTree → DirTree
  | .mk files subdirs =>
    .mk (files.filter (fun f =>
          !(strEndsWith (strToLower f) "pyo" || strEndsWith (strToLower f) "pyc")))
      (removeBinariesSubdirs subdirs)

def removeBinariesSubdirs : List (String × DirTree) → List (String × DirTree)
  | [] => []
  | (n, d) :: rest =>
    (if strContainsSub (strToLower n) "pycache" then [] else [(n, removeBinaries d)]) ++
      removeBinariesSubdirs rest

end

/-- The target archive path `zips/<addon_id>/<addon_id>-<version>.zip`. -/
def zipPath (addonId version : String) : String :=
  "zips/" ++ addonId ++ "/" ++ addonId ++ "-" ++ version ++ ".zip"

/-- The `zips/` output directory: archive path to archive member list. -/
structure ZipFs where
  archives : List (String × List (List String))

/-- Models `_create_zip` of src/repo_generator.py lines 102-124: if the target path
already exists, do nothing; otherwise write the archive whose members come
from the filtered walk, rooted at the addon folder name. -/
def createZip (fs : ZipFs) (folder addonId version : String) (tree : DirTree) : ZipFs :=
  let target := zipPath addonId version
  if (fs.archives.map Prod.fst).contains target then fs
  else ⟨fs.archives ++ [(target, walkEntries [folder] tree)]⟩

/-- Models `_create_zip` of src/_repo_generator.py lines 124-154: always open the
target for writing (truncating any existing archive) and write the members
of the unfiltered-files walk. -/
def createZipLegacy (fs : ZipFs) (folder addonId version : String) (tree : DirTree) :
    ZipFs :=
  let target := zipPath addonId version
  let entries := walkEntriesLegacy [folder] tree
  if (fs.archives.map Prod.fst).contains target then
    ⟨fs.archives.map (fun p => if p.1 == target then (target, entries) else p)⟩
  else ⟨fs.archives ++ [(target, entries)]⟩

/-! ## Dependency rewrite (specification section 4.3) -/

/-- Modelled from the spec: neither source variant contains the
dependency-rewrite rule of section 4.3 ("if a dependency reference matches a
known deprecated interpreter-version pin, rewrite it in place to a designated
successor version before insertion", table-driven as
`(deprecatedDependencyId, deprecatedVersion) -> newVersion`).  This
definition follows the spec's words so the absent behavior can be compared
with what the source actually inserts: rewrite each dependency-declaration
sub-element whose `addon`/`version` attributes match a table row. -/
def rewriteDepElem (table : List ((String × String) × String)) (c : XmlElement) :
    XmlElement :=
  match getAttr c "addon", getAttr c "version" with
  | some a, some v =>
    match table.find? (fun r => r.1.1 == a && r.1.2 == v) with
    | some r => setAttr c "version" r.2
    | none => c
  | _, _ => c

/-- Modelled from the spec: apply `rewriteDepElem` to every sub-element of a
manifest root before it would be folded into the index. -/
def rewriteDeps (table : List ((String × String) × String)) (m : XmlElement) :
    XmlElement :=
  .mk m.tag m.attrs (m.children.map (rewriteDepElem table))

/-! ## General lemmas about the reconcile loop -/

/-- Closed form of the per-addon loop: entries are the initial entries
followed by the successfully parsed manifest roots in processing order,
`changed` becomes true exactly when some manifest parses, and one error line
naming the folder is reported per failed candidate. -/
theorem processFolders_eq (m : ManifestTable) (folders : List String) :
    ∀ (root : List XmlElement) (changed : Bool) (errs : List String),
    processFolders m folders root changed errs =
      (root ++ folders.filterMap (fun a => (m a).toOption),
       changed || folders.any (fun a => (m a).toOption.isSome),
       errs ++ folders.filterMap (fun a =>
         match m a with
         | .ok _ => none
         | .error e => some ("Error processing addon " ++ a ++ ": " ++ e))) := by
  induction folders with
  | nil => intro root changed errs; simp [processFolders]
  | cons a rest ih =>
    intro root changed errs
    cases h : m a with
    | ok r => simp [processFolders, h, ih, Except.toOption]
    | error e => simp [processFolders, h, ih, Except.toOption]

/-! ## General lemmas about the hex digest -/

theorem hexDigit_mem (n : Nat) : hexDigit n ∈ hexDigits := by
  have h : n % 16 < hexDigits.length := by
    have h16 : hexDigits.length = 16 := rfl
    rw [h16]
    exact Nat.mod_lt _ (by norm_num)
  rw [hexDigit, List.getD_eq_getElem _ _ h]
  exact List.getElem_mem h

theorem flatten_byteHex_length (l : List Nat) :
    ((l.map byteHex).flatten).length = 2 * l.length := by
  induction l with
  | nil => simp
  | cons b rest ih => simp [byteHex, ih]; omega

theorem md5Digest_length (msg : List Nat) : (md5Digest msg).length = 16 := by
  simp [md5Digest, leBytes4]

theorem md5Hex_length (msg : List Nat) : (md5Hex msg).data.length = 32 := by
  have h : (md5Hex msg).data = ((md5Digest msg).map byteHex).flatten := rfl
  rw [h, flatten_byteHex_length, md5Digest_length]

theorem md5Hex_chars (msg : List Nat) :
    ∀ c ∈ (md5Hex msg).data, c ∈ hexDigits := by
  intro c hc
  simp only [md5Hex, String.data] at hc
  rcases List.mem_flatten.mp hc with ⟨l, hl, hcl⟩
  rcases List.mem_map.mp hl with ⟨b, _, rfl⟩
  simp only [byteHex, List.mem_cons, List.not_mem_nil, or_false] at hcl
  rcases hcl with rfl | rfl
  · exact hexDigit_mem _
  · exact hexDigit_mem _

/-! ## General lemmas about archive building -/

mutual

/-- Every archive member produced by the walk extends the root path. -/
theorem walkEntries_rooted (path : List String) (t : DirTree) :
    ∀ p ∈ walkEntries path t, ∃ rest, p = path ++ rest := by
  cases t with
  | mk files subdirs =>
    intro p hp
    rw [walkEntries] at hp
    rcases List.mem_append.mp hp with h | h
    · rcases List.mem_map.mp h with ⟨f, _, rfl⟩
      exact ⟨[f], rfl⟩
    · exact walkSubdirs_rooted path subdirs p h

theorem walkSubdirs_rooted (path : List String) (l : List (String × DirTree)) :
    ∀ p ∈ walkSubdirs path l, ∃ rest, p = path ++ rest := by
  cases l with
  | nil => intro p hp; rw [walkSubdirs] at hp; cases hp
  | cons nd rest =>
    intro p hp
    rw [walkSubdirs] at hp
    rcases List.mem_append.mp hp with h | h
    · by_cases hn : nd.1 ∈ IGNORE
      · simp [hn] at h
      · simp only [if_neg hn] at h
        rcases walkEntries_rooted (path ++ [nd.1]) nd.2 p h with ⟨r, rfl⟩
        exact ⟨nd.1 :: r, by simp⟩
    · exact walkSubdirs_rooted path rest p h

end

/-- After the legacy `_create_zip`, the target path holds the members of the
fresh walk, whether or not an archive already existed there. -/
theorem createZipLegacy_mem (fs : ZipFs) (folder addonId version : String)
    (tree : DirTree) :
    (zipPath addonId version, walkEntriesLegacy [folder] tree) ∈
      (createZipLegacy fs folder addonId version tree).archives := by
  rw [createZipLegacy]
  by_cases h : (fs.archives.map Prod.fst).contains (zipPath addonId version)
  · simp only [h, if_true]
    rcases List.elem_iff.mp h with hmem
    rcases List.mem_map.mp hmem with ⟨p, hp, hp1⟩
    refine List.mem_map.mpr ⟨p, hp, ?_⟩
    simp [hp1]
  · rw [if_neg h]
    simp

/-! ## Concrete run fixtures -/

/-- Manifest root `<addon id='apple' version='1.0' />`. -/
def appleV1 : XmlElement := .mk "addon" [("id", "apple"), ("version", "1.0")] []

/-- Manifest root `<addon id='apple' version='1.1' />`. -/
def appleV2 : XmlElement := .mk "addon" [("id", "apple"), ("version", "1.1")] []

/-- Manifest root `<addon id='banana' version='1.0' />`. -/
def bananaM : XmlElement := .mk "addon" [("id", "banana"), ("version", "1.0")] []

/-- Manifest root `<addon id='cherry' version='1.0' />`. -/
def cherryM : XmlElement := .mk "addon" [("id", "cherry"), ("version", "1.0")] []

/-- A qualifying candidate directory entry named `n`. -/
def candidateDir (n : String) : DirEntry := ⟨n, true, true⟩

/-- A release root whose persisted index already holds the `apple` entry at
version 1.0 while the `apple` directory now carries version 1.1. -/
def inputDupId : ReleaseInput :=
  { listing := [candidateDir "apple"],
    manifests := fun n => if n = "apple" then .ok appleV2 else .error "no manifest",
    existingAddonsXml := some [appleV1] }

/-- A release root holding the addons `banana`, `apple`, `cherry`, listed in
that enumeration order, with no persisted index yet. -/
def inputThreeAddons : ReleaseInput :=
  { listing := [candidateDir "banana", candidateDir "apple", candidateDir "cherry"],
    manifests := fun n =>
      if n = "banana" then .ok bananaM
      else if n = "apple" then .ok appleV1
      else if n = "cherry" then .ok cherryM
      else .error "no manifest",
    existingAddonsXml := none }

/-! ## C1 -/

/-- C1: evaluation of the code at the failing input.  The claim states that
folding a descriptor whose id already exists replaces the old entry, keeping
at most one entry per id.  Running on `inputDupId` — whose persisted index
already holds an `apple` entry — the loop at src/_repo_generator.py line 249
appends unconditionally, leaving two entries with id `apple` (the never-used
`addon_xpath` lookup template at line 231 shows the intended
lookup-and-replace was dropped). -/
theorem duplicateIdAppended :
    idsOf (generatorRun inputDupId).gen.index = ["apple", "apple"] ∧
    (generatorRun inputDupId).gen.index.map (fun e => getAttr e "version") =
      [some "1.0", some "1.1"] := by
  constructor <;> decide

/-! ## C2 -/

/-- C2, counterexample: folding addons in the order `{banana, apple, cherry}`
into an empty index yields entries ordered `{banana, apple, cherry}` — the
loop never re-sorts, so the result is not the claimed
`{apple, banana, cherry}`. -/
theorem foldOrderNotSorted :
    idsOf (generatorRun inputThreeAddons).gen.index = ["banana", "apple", "cherry"] ∧
    idsOf (generatorRun inputThreeAddons).gen.index ≠ ["apple", "banana", "cherry"] := by
  constructor <;> decide

/-- C2, amended: after any insertion the index entries are the previously
persisted entries followed by the successfully folded descriptors in
processing order — insertion order, never re-sorted by id; in particular
folding `{banana, apple, cherry}` into an empty index yields
`{banana, apple, cherry}`. -/
theorem indexEntriesInFoldOrder :
    (∀ inp : ReleaseInput,
      (generateAddonsFile inp).index =
        inp.existingAddonsXml.getD [] ++
          (discoverFolders inp.listing).filterMap (fun a => (inp.manifests a).toOption)) ∧
    idsOf (generateAddonsFile inputThreeAddons).index = ["banana", "apple", "cherry"] := by
  constructor
  · intro inp
    simp [generateAddonsFile, processFolders_eq]
  · decide

/-! ## C9 -/

/-- Two qualifying directories enumerated by the filesystem as
`banana` before `apple`. -/
def listingUnsorted : List DirEntry := [candidateDir "banana", candidateDir "apple"]

/-- C9, counterexample: discovery keeps the filesystem enumeration order —
for a listing enumerated `{banana, apple}` the candidates are processed as
`{banana, apple}`, not normalized to the sorted `{apple, banana}`. -/
theorem discoveryOrderNotSorted :
    discoverFolders listingUnsorted = ["banana", "apple"] ∧
    discoverFolders listingUnsorted ≠ ["apple", "banana"] := by
  constructor <;> decide

/-- C9, amended: discovery selects exactly the immediate entries that are
directories, are not the output directory `zips`, do not start with the
hidden-file marker `.`, and contain an `addon.xml`; the selected candidates
are processed in the filesystem enumeration order (a subsequence of the
listing), with no sorting step. -/
theorem discoverySelectionCriteria :
    (∀ (listing : List DirEntry) (s : String),
      s ∈ discoverFolders listing ↔
        ∃ e ∈ listing, e.name = s ∧ e.isDir = true ∧ s ≠ "zips" ∧
          strStartsWith s "." = false ∧ e.hasAddonXml = true) ∧
    ∀ listing : List DirEntry,
      (discoverFolders listing).Sublist (listing.map DirEntry.name) := by
  constructor
  · intro listing s
    constructor
    · intro hs
      rcases List.mem_map.mp hs with ⟨e, he, rfl⟩
      rcases List.mem_filter.mp he with ⟨hmem, hcond⟩
      simp only [Bool.and_eq_true, bne_iff_ne, ne_eq, Bool.not_eq_true,
        Bool.not_eq_true'] at hcond
      exact ⟨e, hmem, rfl, hcond.1.1.1, hcond.1.1.2, hcond.1.2, hcond.2⟩
    · rintro ⟨e, he, rfl, hdir, hzips, hdot, haddon⟩
      refine List.mem_map.mpr ⟨e, List.mem_filter.mpr ⟨he, ?_⟩, rfl⟩
      simp [hdir, hzips, hdot, haddon]
  · intro listing
    exact (List.filter_sublist listing).map DirEntry.name

/-- C9, witness for the selection characterization at a concrete listing. -/
theorem discoverySelectionCriteriaWitness :
    "apple" ∈ discoverFolders listingUnsorted :=
  (discoverySelectionCriteria.1 listingUnsorted "apple").mpr
    ⟨candidateDir "apple", by decide, rfl, rfl, by decide, by decide, rfl⟩

/-! ## C3 -/

/-- An addon directory holding the single file `a.txt`. -/
def treeSimple : DirTree := .mk ["a.txt"] []

/-- A `zips/` directory where `apple-1.0.zip` is already built with the
member `apple/old.txt`. -/
def fsExisting : ZipFs := ⟨[("zips/apple/apple-1.0.zip", [["apple", "old.txt"]])]⟩

/-- C3, counterexample: `_create_zip` of src/_repo_generator.py opens the
target for writing unconditionally, so a pre-existing archive at
`zips/apple/apple-1.0.zip` is overwritten with the freshly walked members —
the claim that an existing artifact is never rewritten fails on that
variant. -/
theorem legacyZipOverwrites :
    (createZipLegacy fsExisting "apple" "apple" "1.0" treeSimple).archives =
      [("zips/apple/apple-1.0.zip", [["apple", "a.txt"]])] ∧
    (createZipLegacy fsExisting "apple" "apple" "1.0" treeSimple).archives ≠
      fsExisting.archives := by
  constructor <;> decide

/-- C3, amended: archive building is idempotent in the
src/repo_generator.py variant only — there, an existing target archive is
left untouched; the src/_repo_generator.py variant rebuilds unconditionally,
writing the walked members to the target whether or not it existed. -/
theorem zipSkipIfExistsPolicy :
    ∀ (fs : ZipFs) (folder addonId version : String) (tree : DirTree),
      ((fs.archives.map Prod.fst).contains (zipPath addonId version) = true →
        createZip fs folder addonId version tree = fs) ∧
      (zipPath addonId version, walkEntriesLegacy [folder] tree) ∈
        (createZipLegacy fs folder addonId version tree).archives := by
  intro fs folder addonId version tree
  constructor
  · intro h
    simp only [createZip]
    rw [if_pos h]
  · exact createZipLegacy_mem fs folder addonId version tree

/-- C3, witness: with `apple-1.0.zip` already present, the skip-if-exists
variant leaves the filesystem unchanged. -/
theorem zipSkipIfExistsPolicyWitness :
    createZip fsExisting "apple" "apple" "1.0" treeSimple = fsExisting :=
  (zipSkipIfExistsPolicy fsExisting "apple" "apple" "1.0" treeSimple).1 (by decide)

/-! ## C4 -/

/-- A release root whose persisted index already holds exactly the entry the
single candidate's manifest parses to: nothing differs. -/
def inputIdentical : ReleaseInput :=
  { listing := [candidateDir "apple"],
    manifests := fun n => if n = "apple" then .ok appleV1 else .error "no manifest",
    existingAddonsXml := some [appleV1] }

/-- A release root with one candidate whose manifest is malformed, so no
candidate is processed successfully. -/
def inputNoCandidates : ReleaseInput :=
  { listing := [candidateDir "broken"],
    manifests := fun _ => .error "malformed manifest",
    existingAddonsXml := none }

/-- C4, counterexample: the claim says `updated = false` when the existing
entry is identical to the new descriptor, and that then nothing is written.
The loop at src/_repo_generator.py lines 243-244 forces `updated = True`
and `changed = True` without any comparison, so an identical manifest still
marks the run changed and both the index and checksum files are written. -/
theorem identicalEntryStillUpdates :
    (generatorRun inputIdentical).gen.changed = true ∧
    (generatorRun inputIdentical).addonsXmlContent.isSome = true ∧
    (generatorRun inputIdentical).md5Content.isSome = true := by
  refine ⟨by decide, by decide, by decide⟩

/-- C4, amended: the run is marked changed exactly when at least one
discovered candidate's manifest parses successfully — content identity is
never consulted — and when no candidate succeeds the run writes neither the
index file nor the checksum file. -/
theorem changedIffAnyParseOk :
    ∀ inp : ReleaseInput,
      ((generateAddonsFile inp).changed =
        (discoverFolders inp.listing).any (fun a => (inp.manifests a).toOption.isSome)) ∧
      ((generateAddonsFile inp).changed = false →
        (generatorRun inp).addonsXmlContent = none ∧
          (generatorRun inp).md5Content = none) := by
  intro inp
  constructor
  · simp [generateAddonsFile, processFolders_eq]
  · intro h
    simp [generatorRun, h]

/-- C4, witness: a run where the only candidate fails to parse writes
neither file. -/
theorem changedIffAnyParseOkWitness :
    (generatorRun inputNoCandidates).addonsXmlContent = none ∧
      (generatorRun inputNoCandidates).md5Content = none :=
  (changedIffAnyParseOk inputNoCandidates).2 (by decide)

/-! ## C5 -/

/-- Case split of one run on the `changed` flag. -/
theorem generatorRun_split (inp : ReleaseInput) :
    generatorRun inp =
      if (generateAddonsFile inp).changed then
        ⟨generateAddonsFile inp,
         some (serializeIndex (generateAddonsFile inp).index),
         some (generateMd5File (serializeIndex (generateAddonsFile inp).index))⟩
      else ⟨generateAddonsFile inp, none, none⟩ := rfl

/-- C5: whenever the run writes the index file, the checksum file it writes
holds exactly the MD5 hex digest of the UTF-8 bytes of that index content —
recomputed here independently by the embedded digest — and that digest
string is 32 characters, all lowercase hexadecimal digits (in particular no
trailing newline). -/
theorem md5FileMatchesIndexBytes :
    ∀ (inp : ReleaseInput) (content : String),
      (generatorRun inp).addonsXmlContent = some content →
        (generatorRun inp).md5Content = some (md5Hex (utf8Encode content)) ∧
        (md5Hex (utf8Encode content)).data.length = 32 ∧
        ∀ c ∈ (md5Hex (utf8Encode content)).data, c ∈ hexDigits := by
  intro inp content h
  rw [generatorRun_split] at h ⊢
  cases hcg : (generateAddonsFile inp).changed with
  | false => rw [hcg] at h; simp at h
  | true =>
    rw [hcg] at h
    simp only [eq_self_iff_true, if_true, Option.some.injEq] at h
    subst h
    exact ⟨rfl, md5Hex_length _, md5Hex_chars _⟩

/-- C5, witness at the three-addon run. -/
theorem md5FileMatchesIndexBytesWitness :
    (generatorRun inputThreeAddons).md5Content =
      some (md5Hex (utf8Encode (serializeIndex [bananaM, appleV1, cherryM]))) ∧
    (md5Hex (utf8Encode (serializeIndex [bananaM, appleV1, cherryM]))).data.length = 32 ∧
    ∀ c ∈ (md5Hex (utf8Encode (serializeIndex [bananaM, appleV1, cherryM]))).data,
      c ∈ hexDigits :=
  md5FileMatchesIndexBytes inputThreeAddons
    (serializeIndex [bananaM, appleV1, cherryM]) (by rfl)

/-! ## C6 -/

/-- Manifest root `<addon id='first' version='1.0' />`. -/
def firstM : XmlElement := .mk "addon" [("id", "first"), ("version", "1.0")] []

/-- Manifest root `<addon id='third' version='1.0' />`. -/
def thirdM : XmlElement := .mk "addon" [("id", "third"), ("version", "1.0")] []

/-- Three candidate directories where the second, `bravo`, has a malformed
manifest. -/
def inputOneBad : ReleaseInput :=
  { listing := [candidateDir "alpha", candidateDir "bravo", candidateDir "charlie"],
    manifests := fun n =>
      if n = "alpha" then .ok firstM
      else if n = "bravo" then .error "malformed manifest"
      else if n = "charlie" then .ok thirdM
      else .error "no manifest",
    existingAddonsXml := none }

/-- C6: with three candidates whose second has a malformed manifest, the run
completes, the index holds entries for the first and third only, the single
reported error names the second candidate, and the index file is still
written. -/
theorem partialFailureIsolation :
    idsOf (generatorRun inputOneBad).gen.index = ["first", "third"] ∧
    (generatorRun inputOneBad).gen.errors =
      ["Error processing addon bravo: malformed manifest"] ∧
    (generatorRun inputOneBad).addonsXmlContent.isSome = true := by
  refine ⟨by decide, by decide, by decide⟩

/-! ## C7 -/

/-- A manifest whose dependency declaration pins the deprecated interpreter
version: `<addon id='plugin.x'><import addon='xbmc.python' version='2.25.0' /></addon>`. -/
def pinnedManifest : XmlElement :=
  .mk "addon" [("id", "plugin.x"), ("version", "1.0")]
    [.mk "import" [("addon", "xbmc.python"), ("version", "2.25.0")] []]

/-- A one-row migration table pinning `xbmc.python 2.25.0` to successor
`3.0.0`, in the table-driven shape the spec prescribes. -/
def depTable : List ((String × String) × String) := [(("xbmc.python", "2.25.0"), "3.0.0")]

/-- The `version` attributes of a manifest's dependency sub-elements. -/
def depVersions (m : XmlElement) : List (Option String) :=
  m.children.map (fun c => getAttr c "version")

/-- A release root with the single pinned-manifest addon. -/
def inputPinned : ReleaseInput :=
  { listing := [candidateDir "plugin.x"],
    manifests := fun n => if n = "plugin.x" then .ok pinnedManifest else .error "no manifest",
    existingAddonsXml := none }

/-- C7, counterexample: the entry folded into the index still carries the
deprecated pin `2.25.0`, while the spec's rewrite (modelled by
`rewriteDeps`) would have produced the successor `3.0.0` — so no matching
sub-element is rewritten before insertion. -/
theorem pinnedDependencyNotRewritten :
    (generatorRun inputPinned).gen.index.map depVersions = [[some "2.25.0"]] ∧
    depVersions (rewriteDeps depTable pinnedManifest) = [some "3.0.0"] ∧
    ([[some "2.25.0"]] : List (List (Option String))) ≠ [[some "3.0.0"]] := by
  refine ⟨by decide, by decide, by decide⟩

/-- C7, amended: every successfully parsed manifest subtree is folded into
the index verbatim — no dependency-declaration sub-element is rewritten,
whether or not it matches a deprecated pin. -/
theorem manifestsFoldedVerbatim :
    ∀ (inp : ReleaseInput) (a : String) (r : XmlElement),
      a ∈ discoverFolders inp.listing → inp.manifests a = .ok r →
        r ∈ (generateAddonsFile inp).index := by
  intro inp a r ha hm
  have h : (generateAddonsFile inp).index =
      inp.existingAddonsXml.getD [] ++
        (discoverFolders inp.listing).filterMap (fun a => (inp.manifests a).toOption) := by
    simp [generateAddonsFile, processFolders_eq]
  rw [h]
  refine List.mem_append.mpr (Or.inr ?_)
  exact List.mem_filterMap.mpr ⟨a, ha, by rw [hm]; rfl⟩

/-- C7, witness: the pinned manifest is inserted unchanged. -/
theorem manifestsFoldedVerbatimWitness :
    pinnedManifest ∈ (generateAddonsFile inputPinned).index :=
  manifestsFoldedVerbatim inputPinned "plugin.x" pinnedManifest (by decide) rfl

/-! ## C8 -/

/-- An addon directory containing `{a.txt, .git/x, __pycache__/y.pyc}`. -/
def treeWithIgnored : DirTree :=
  .mk ["a.txt"] [(".git", .mk ["x"] []), ("__pycache__", .mk ["y.pyc"] [])]

/-- C8: for the addon directory `{a.txt, .git/x, __pycache__/y.pyc}` the run
(which removes compiled-python artifacts before zipping, then walks with the
ignore filter) produces an archive whose only member is `myaddon/a.txt`; and
in general every archive member lies under the single top-level folder named
after the addon. -/
theorem archiveContentsFiltered :
    walkEntries ["myaddon"] (removeBinaries treeWithIgnored) = [["myaddon", "a.txt"]] ∧
    ∀ (folder : String) (t : DirTree) (p : List String),
      p ∈ walkEntries [folder] t → ∃ rest, p = folder :: rest := by
  constructor
  · decide
  · intro folder t p hp
    rcases walkEntries_rooted [folder] t p hp with ⟨rest, rfl⟩
    exact ⟨rest, rfl⟩

/-- C8, witness: the single produced member is rooted at the addon folder. -/
theorem archiveContentsFilteredWitness :
    ∃ rest, (["myaddon", "a.txt"] : List String) = "myaddon" :: rest :=
  archiveContentsFiltered.2 "myaddon" (removeBinaries treeWithIgnored)
    ["myaddon", "a.txt"] (by decide)

/-! ## C10 -/

/-- A release root whose persisted index holds the `apple` entry while the
`apple` directory no longer exists on disk (empty listing). -/
def inputDeletedDir : ReleaseInput :=
  { listing := [],
    manifests := fun _ => .error "no manifest",
    existingAddonsXml := some [appleV1] }

/-- C10: no run removes an entry — the in-memory index is the persisted
entry list extended on the right, so every previously persisted entry (in
particular one whose addon directory no longer exists) is still present
after the run. -/
theorem indexOnlyGrows :
    ∀ inp : ReleaseInput,
      (∃ rest, (generateAddonsFile inp).index = inp.existingAddonsXml.getD [] ++ rest) ∧
      ∀ e ∈ inp.existingAddonsXml.getD [], e ∈ (generateAddonsFile inp).index := by
  intro inp
  have h : (generateAddonsFile inp).index =
      inp.existingAddonsXml.getD [] ++
        (discoverFolders inp.listing).filterMap (fun a => (inp.manifests a).toOption) := by
    simp [generateAddonsFile, processFolders_eq]
  exact ⟨⟨_, h⟩, fun e he => h ▸ List.mem_append_left _ he⟩

/-- C10, witness: the entry of a deleted addon directory survives the run. -/
theorem indexOnlyGrowsWitness :
    appleV1 ∈ (generateAddonsFile inputDeletedDir).index :=
  (indexOnlyGrows inputDeletedDir).2 appleV1 (by simp [inputDeletedDir])
